import Mathlib

/-
Verification development for the platformer simulation core in
src/components/GameCanvas.tsx.  The definitions below are a shallow
embedding of the gameLoop update logic: numbers are modelled as
rationals (every constant in the source is an exact decimal), the
loosely typed GameObject record becomes a structure whose optional
fields carry the default value 0 or false (matching the source, which
reads absent fields through the JS falsy defaulting idiom obj.vx or 0),
and the two Math.random() draws of the question-block policy are passed
in as explicit oracle arguments r1 r2.
-/

namespace MarioSim

/-- Entity kind tags, copied from the type union of the GameObject interface. -/
inductive ObjType where
  | mario | goomba | mushroom | coin | block | pipe | ground | oneup
  | brick | flag | fireflower | fireball | piranha | koopa | starman | elevator
deriving DecidableEq

/-- Shallow embedding of the GameObject record.  Optional fields of the
source default to 0 or false.  The field hasVy models the
hasOwnProperty check the coin physics branch performs on vy: level
authored coins lack the vy property while block spawned coins carry it. -/
structure GameObject where
  x : ℚ
  y : ℚ
  width : ℚ
  height : ℚ
  type : ObjType
  active : Bool := true
  vx : ℚ := 0
  vy : ℚ := 0
  grounded : Bool := false
  direction : ℚ := 0
  big : Bool := false
  fire : Bool := false
  solid : Bool := false
  bounce : ℚ := 0
  shell : Bool := false
  moving : Bool := false
  minY : ℚ := 0
  maxY : ℚ := 0
  invincible : ℚ := 0
  broken : Bool := false
  hasVy : Bool := false
deriving DecidableEq

/-- Gravity constant of the source. -/
def GRAVITY : ℚ := 0.6

/-- Jump impulse constant of the source. -/
def JUMP_FORCE : ℚ := -14

/-- Strict axis aligned overlap test, from the source function checkCollision. -/
def checkCollision (a b : GameObject) : Prop :=
  a.x < b.x + b.width ∧ a.x + a.width > b.x ∧
    a.y < b.y + b.height ∧ a.y + a.height > b.y

instance (a b : GameObject) : Decidable (checkCollision a b) := by
  unfold checkCollision; exact inferInstance

/-- Classification guard for the hit from below special case, copied from
the condition at the head of the solid collision branch: the entity is a
block or brick, the player moves upward, the previous frame top edge was
within 5 units of the underside of the entity, and the current top edge
is at or above that underside. -/
def hitFromBelowCond (prevY : ℚ) (m obj : GameObject) : Prop :=
  (obj.type = ObjType.block ∨ obj.type = ObjType.brick) ∧ m.vy < 0 ∧
    prevY ≥ obj.y + obj.height - 5 ∧ m.y ≤ obj.y + obj.height

instance (prevY : ℚ) (m obj : GameObject) : Decidable (hitFromBelowCond prevY m obj) := by
  unfold hitFromBelowCond; exact inferInstance

/-- Mushroom literal pushed by the question block branches. -/
def mushroomSpawn (bx y0 : ℚ) : GameObject :=
  { x := bx, y := y0 - 20, width := 16, height := 16, type := ObjType.mushroom,
    active := true, vx := 1.5, vy := -2, hasVy := true }

/-- Fire flower literal pushed by the question block branches; it has no vx field. -/
def fireflowerSpawn (bx y0 : ℚ) : GameObject :=
  { x := bx, y := y0 - 20, width := 16, height := 16, type := ObjType.fireflower,
    active := true, vy := -2, hasVy := true }

/-- One up literal pushed by the question block branches. -/
def oneupSpawn (bx y0 : ℚ) : GameObject :=
  { x := bx, y := y0 - 20, width := 16, height := 16, type := ObjType.oneup,
    active := true, vx := 1.5, vy := -2, hasVy := true }

/-- Falling coin literal pushed by the question block coin branches. -/
def coinSpawn (bx y0 : ℚ) : GameObject :=
  { x := bx + 8, y := y0 - 20, width := 16, height := 16, type := ObjType.coin,
    active := true, vy := -8, vx := 0, hasVy := true }

/-- Starman literal pushed by the special brick branch of level 2. -/
def starmanSpawn (bx y0 : ℚ) : GameObject :=
  { x := bx, y := y0 - 20, width := 16, height := 16, type := ObjType.starman,
    active := true, vx := 2, vy := -8, hasVy := true }

/-- Output of a block interaction: the newly pushed entities plus the
coin and score counter deltas applied inline by the source. -/
structure SpawnOut where
  spawns : List GameObject
  coinsDelta : ℤ
  scoreDelta : ℤ
deriving DecidableEq

/-- Question block spawn policy, translated branch for branch from the
source: level 1 fixes the blocks at x 352 and x 768, all other level 1
blocks draw on the random oracle (r1 decides powerup versus coin, r2
decides oneup versus mushroom), level 2 fixes the blocks at x 128 and
x 160 as coins and grades the rest by the player tier.  Levels other
than 1 and 2 have no branch in the source, so nothing spawns. -/
def questionSpawn (level : ℤ) (marioBig marioFire : Bool) (bx y0 : ℚ)
    (r1 r2 : ℚ) : SpawnOut :=
  if level = 1 then
    if bx = 352 then ⟨[mushroomSpawn bx y0], 0, 0⟩
    else if bx = 768 then
      if marioBig ∧ ¬ marioFire then ⟨[fireflowerSpawn bx y0], 0, 0⟩
      else ⟨[mushroomSpawn bx y0], 0, 0⟩
    else
      if r1 < 0.3 then
        ⟨[if r2 < 0.15 then oneupSpawn bx y0 else mushroomSpawn bx y0], 0, 0⟩
      else ⟨[coinSpawn bx y0], 1, 200⟩
  else if level = 2 then
    if bx = 128 ∨ bx = 160 then ⟨[coinSpawn bx y0], 1, 200⟩
    else if ¬ marioBig then ⟨[mushroomSpawn bx y0], 0, 0⟩
    else if ¬ marioFire then ⟨[fireflowerSpawn bx y0], 0, 0⟩
    else ⟨[oneupSpawn bx y0], 0, 0⟩
  else ⟨[], 0, 0⟩

/-- Spawn list of the brick break branch: only the level 2 brick at
x 256 yields a starman. -/
def brickSpawns (level : ℤ) (bx y0 : ℚ) : List GameObject :=
  if level = 2 ∧ bx = 256 then [starmanSpawn bx y0] else []

/-- Block interaction logic run inside the hit from below branch: a
question block converts to a brick and runs the question spawn policy;
a brick hit by a big player breaks (deactivates, broken flag, 50
points) and may yield the level 2 starman; anything else is untouched. -/
def blockHit (level : ℤ) (marioBig marioFire : Bool) (obj : GameObject)
    (r1 r2 : ℚ) : GameObject × SpawnOut :=
  if obj.type = ObjType.block then
    ({ obj with type := ObjType.brick },
      questionSpawn level marioBig marioFire obj.x obj.y r1 r2)
  else if obj.type = ObjType.brick ∧ marioBig then
    ({ obj with active := false, broken := true },
      ⟨brickSpawns level obj.x obj.y, 0, 50⟩)
  else (obj, ⟨[], 0, 0⟩)

/-- Generic minimum overlap resolution of the source: the axis of
strictly smaller penetration is resolved, with the vertical axis taken
on ties; returns the updated player and the onGround accumulator. -/
def resolveGeneric (m obj : GameObject) (onGround : Bool) : GameObject × Bool :=
  let overlapX := min (m.x + m.width - obj.x) (obj.x + obj.width - m.x)
  let overlapY := min (m.y + m.height - obj.y) (obj.y + obj.height - m.y)
  if overlapX < overlapY then
    if m.x < obj.x then ({ m with x := obj.x - m.width, vx := 0 }, onGround)
    else ({ m with x := obj.x + obj.width, vx := 0 }, onGround)
  else
    if m.y < obj.y then
      ({ m with y := obj.y - m.height, vy := 0, grounded := true }, true)
    else ({ m with y := obj.y + obj.height, vy := 0 }, onGround)

/-- Result of one per entity step of the solid collision pass; the flag
firedBlockHit records that the hit from below branch ran (the branch
that performs the block interaction and then returns early). -/
structure StepOut where
  mario : GameObject
  onGround : Bool
  firedBlockHit : Bool
deriving DecidableEq

/-- One iteration of the solid collision forEach for the player: skip
inactive, non solid or broken entities and non overlaps, apply the hit
from below special case (bounce down at vy 3, flush below the entity,
early return), otherwise the generic resolver. -/
def resolvePlayerOne (prevY : ℚ) (m : GameObject) (onGround : Bool)
    (obj : GameObject) : StepOut :=
  if obj.active ∧ obj.solid ∧ ¬ obj.broken ∧ checkCollision m obj then
    if hitFromBelowCond prevY m obj then
      ⟨{ m with vy := 3, y := obj.y + obj.height }, onGround, true⟩
    else
      let r := resolveGeneric m obj onGround
      ⟨r.1, r.2, false⟩
  else ⟨m, onGround, false⟩

/-- Sequential fold of the per entity resolution over the entity list,
starting from onGround false, as in the source forEach. -/
def resolvePlayerAll (prevY : ℚ) (m : GameObject) (objs : List GameObject) :
    GameObject × Bool :=
  objs.foldl
    (fun acc obj =>
      let r := resolvePlayerOne prevY acc.1 acc.2 obj
      (r.mario, r.onGround))
    (m, false)

/-- Hardcoded world floor fallback of the source, run after the entity pass. -/
def floorClamp (m : GameObject) (onGround : Bool) : GameObject × Bool :=
  if m.y + m.height ≥ 368 then
    ({ m with y := 368 - m.height, vy := 0, grounded := true }, true)
  else (m, onGround)

/-- Full player terrain resolution of one tick: the entity pass, the
floor clamp, and the final grounded reset when airborne and falling. -/
def resolveTerrain (prevY : ℚ) (m : GameObject) (objs : List GameObject) :
    GameObject × Bool :=
  let a := resolvePlayerAll prevY m objs
  let b := floorClamp a.1 a.2
  if ¬ b.2 ∧ b.1.vy ≥ 0 then ({ b.1 with grounded := false }, b.2) else b

/-- Inner bounce check of the powerup behavior branch.  The source
compares object identity with a reference test; it is modelled here as
structural inequality, which only affects vx and never the position. -/
def powerupBounce (acc other : GameObject) : GameObject :=
  if other.active ∧ other.solid ∧ ¬ other.broken ∧ other ≠ acc ∧
      checkCollision acc other then
    { acc with vx := -acc.vx }
  else acc

/-- Behavior update of mushrooms, oneups and starmen: horizontal drift,
gravity, floor clamp, then horizontal bounce off solids. -/
def powerupStep (obj : GameObject) (objs : List GameObject) : GameObject :=
  let o1 := { obj with x := obj.x + obj.vx, vy := obj.vy + GRAVITY }
  let o2 := { o1 with y := o1.y + o1.vy }
  let o3 :=
    if o2.y + o2.height ≥ 368 then { o2 with y := 368 - o2.height, vy := 0 }
    else o2
  objs.foldl powerupBounce o3

/-- Behavior update of the fire flower: vertical only physics with the
floor clamp. -/
def fireflowerStep (obj : GameObject) : GameObject :=
  let o1 := { obj with vy := obj.vy + GRAVITY }
  let o2 := { o1 with y := o1.y + o1.vy }
  if o2.y + o2.height ≥ 368 then { o2 with y := 368 - o2.height, vy := 0 }
  else o2

/-- Behavior update of a fireball: horizontal motion, weak gravity,
floor bounce with energy loss and bounce budget, off screen removal.
The enemy contact check of the source only deactivates and is not
needed for the floor bound. -/
def fireballStep (obj : GameObject) : GameObject :=
  let o1 : GameObject := { obj with x := obj.x + obj.vx, vy := obj.vy + GRAVITY * 0.3 }
  let o2 : GameObject := { o1 with y := o1.y + o1.vy }
  let o3 : GameObject :=
    if o2.y + o2.height ≥ 368 then
      let ob : GameObject := { o2 with y := 368 - o2.height, vy := -(abs o2.vy) * 0.7,
                                       bounce := o2.bounce - 1 }
      if ob.bounce ≤ 0 then { ob with active := false } else ob
    else o2
  if o3.x < (-50 : ℚ) ∨ o3.x > 2000 then { o3 with active := false } else o3

/-- Behavior update of a coin: only coins carrying the vy property (the
block spawned ones) move; gravity, position update, then removal once
below y 450 or once the fall speed exceeds 5. -/
def coinStep (obj : GameObject) : GameObject :=
  if obj.hasVy ∧ obj.active then
    let o1 := { obj with vy := obj.vy + GRAVITY }
    let o2 := { o1 with y := o1.y + o1.vy, x := o1.x + o1.vx }
    if o2.y > 450 ∨ o2.vy > 5 then { o2 with active := false } else o2
  else obj

/-- Mutable tick state shared by the interaction cases: the player
record plus the economy counters and run flags. -/
structure TickState where
  mario : GameObject
  score : ℤ
  lives : ℤ
  coins : ℤ
  gameRunning : Bool := true
  gameWon : Bool := false
  gameOver : Bool := false
  currentLevel : ℤ := 1
deriving DecidableEq

/-- Shared damage code of the goomba, koopa and piranha cases: one step
down the power ladder, or life loss with game over or respawn. -/
def marioDamage (s : TickState) : TickState :=
  if s.mario.fire then
    { s with mario := { s.mario with fire := false, invincible := 120 } }
  else if s.mario.big then
    { s with mario := { s.mario with big := false, height := 20,
                                     y := s.mario.y + 8, invincible := 120 } }
  else
    let s2 := { s with lives := s.lives - 1 }
    if s2.lives ≤ 0 then { s2 with gameOver := true, gameRunning := false }
    else
      { s2 with mario := { s2.mario with x := 50, y := 300, vx := 0, vy := 0,
                                         invincible := 180 } }

/-- Goomba contact case: invincible kill, stomp, or damage. -/
def goombaContact (s : TickState) (obj : GameObject) : TickState × GameObject :=
  if s.mario.invincible > 0 then
    ({ s with score := s.score + 100 }, { obj with active := false })
  else if s.mario.vy > 0 ∧ s.mario.y < obj.y - 5 then
    ({ s with mario := { s.mario with vy := JUMP_FORCE / 2 },
              score := s.score + 100 },
      { obj with active := false })
  else (marioDamage s, obj)

/-- Koopa contact case: invincible kill, stomp (shelling or kicking),
stationary shell kick, damage by a walking koopa; contact with a moving
shell falls through every branch and does nothing. -/
def koopaContact (s : TickState) (obj : GameObject) : TickState × GameObject :=
  if s.mario.invincible > 0 then
    ({ s with score := s.score + 100 }, { obj with active := false })
  else if s.mario.vy > 0 ∧ s.mario.y < obj.y - 5 then
    if ¬ obj.shell then
      ({ s with mario := { s.mario with vy := JUMP_FORCE / 2 },
                score := s.score + 100 },
        { obj with shell := true, vx := 0, width := 16, height := 16 })
    else
      ({ s with mario := { s.mario with vy := JUMP_FORCE / 2 },
                score := s.score + 100 },
        { obj with vx := if s.mario.x < obj.x then 8 else -8 })
  else if obj.shell ∧ obj.vx = 0 then
    ({ s with score := s.score + 100 },
      { obj with vx := if s.mario.x < obj.x then 8 else -8 })
  else if ¬ obj.shell ∨ obj.vx = 0 then (marioDamage s, obj)
  else (s, obj)

/-- Piranha contact case: the source only damages when the invincibility
counter is exactly zero and otherwise does nothing at all. -/
def piranhaContact (s : TickState) (obj : GameObject) : TickState × GameObject :=
  if s.mario.invincible = 0 then (marioDamage s, obj) else (s, obj)

/-- Static coin contact case: deactivate, count, score, and convert at
one hundred coins. -/
def coinContact (s : TickState) (obj : GameObject) : TickState × GameObject :=
  let s1 := { s with coins := s.coins + 1, score := s.score + 200 }
  let s2 :=
    if s1.coins ≥ 100 then { s1 with lives := s1.lives + 1, coins := 0 }
    else s1
  (s2, { obj with active := false })

/-- Mushroom contact case: grow a small player, always score. -/
def mushroomContact (s : TickState) (obj : GameObject) : TickState × GameObject :=
  let m := s.mario
  let m2 :=
    if ¬ m.big then { m with big := true, height := 28, y := m.y - 8 } else m
  ({ s with mario := m2, score := s.score + 1000 }, { obj with active := false })

/-- One up contact case. -/
def oneupContact (s : TickState) (obj : GameObject) : TickState × GameObject :=
  ({ s with lives := s.lives + 1, score := s.score + 1000 },
    { obj with active := false })

/-- Starman contact case. -/
def starmanContact (s : TickState) (obj : GameObject) : TickState × GameObject :=
  ({ s with mario := { s.mario with invincible := 600 },
            score := s.score + 1000 },
    { obj with active := false })

/-- Fire flower contact case: a big player gains fire, a small player
grows to big instead; the flower always deactivates and scores. -/
def fireflowerContact (s : TickState) (obj : GameObject) : TickState × GameObject :=
  let m := s.mario
  let m2 :=
    if m.big then { m with fire := true }
    else { m with big := true, height := 28, y := m.y - 8 }
  ({ s with mario := m2, score := s.score + 1000 }, { obj with active := false })

/-- Flag contact case: level 1 schedules the deferred level transition
(a timer callback outside the modelled state) and scores; otherwise the
game is won. -/
def flagContact (s : TickState) (obj : GameObject) : TickState × GameObject :=
  if s.currentLevel = 1 then ({ s with score := s.score + 5000 }, obj)
  else
    ({ s with gameWon := true, gameRunning := false, score := s.score + 5000 },
      obj)

/-- One iteration of the interaction forEach: skip inactive entities,
test overlap, and dispatch on the entity type as the source switch does
(types without a case are untouched). -/
def contactStep (s : TickState) (obj : GameObject) : TickState × GameObject :=
  if obj.active ∧ checkCollision s.mario obj then
    match obj.type with
    | ObjType.goomba => goombaContact s obj
    | ObjType.koopa => koopaContact s obj
    | ObjType.piranha => piranhaContact s obj
    | ObjType.coin => coinContact s obj
    | ObjType.mushroom => mushroomContact s obj
    | ObjType.oneup => oneupContact s obj
    | ObjType.starman => starmanContact s obj
    | ObjType.fireflower => fireflowerContact s obj
    | ObjType.flag => flagContact s obj
    | _ => (s, obj)
  else (s, obj)

/-- Application of the counter deltas of a block interaction to the tick
state, exactly as the source increments newState.coins and
newState.score inline; no other counter is touched there. -/
def applySpawnEcon (s : TickState) (res : SpawnOut) : TickState :=
  { s with coins := s.coins + res.coinsDelta, score := s.score + res.scoreDelta }

end MarioSim

namespace MarioSim

/-
Concrete states used by the closed theorems below.  Coordinates are
taken from the shipped level data: the ground row sits at y 368, the
level 1 pipe at (448, 304) with size 64 by 64, the level 2 question
blocks at x 128 and x 160 with y 272, and the level 2 piranha at
(544, 280) with size 16 by 16.
-/

/-- Player record of the initial state of the source. -/
def marioInit : GameObject :=
  { x := 50, y := 300, width := 20, height := 20, type := ObjType.mario,
    active := true }

/-- Player state entering the terrain pass inside the level 1 pipe region. -/
def cxMario : GameObject :=
  { x := 460, y := 360, width := 20, height := 20, type := ObjType.mario,
    active := true, vx := 4, vy := 6 }

/-- Ground block of the level data at x 448. -/
def cxGround1 : GameObject :=
  { x := 448, y := 368, width := 32, height := 32, type := ObjType.ground,
    active := true, solid := true }

/-- Ground block of the level data at x 480. -/
def cxGround2 : GameObject :=
  { x := 480, y := 368, width := 32, height := 32, type := ObjType.ground,
    active := true, solid := true }

/-- First pipe of the level 1 data. -/
def cxPipe : GameObject :=
  { x := 448, y := 304, width := 64, height := 64, type := ObjType.pipe,
    active := true, solid := true }

end MarioSim

namespace MarioSim

lemma resolveGeneric_no_overlap (m obj : GameObject) (g : Bool) :
    ¬ checkCollision (resolveGeneric m obj g).1 obj := by
  unfold resolveGeneric checkCollision
  dsimp only
  split_ifs with h1 h2 h2 <;> simp only [not_and, not_lt] <;> intro ha hb hc <;> linarith

/-- Claim C1 (amended): immediately after the per entity resolution step
for an active, solid, non broken entity, the resolved player box has
zero overlap with that entity; this covers the hit from below special
case, which leaves the player exactly flush with the underside of the
block.  The end of tick claim over the whole entity list fails, see the
companion counterexample. -/
theorem C1_per_entity_no_overlap (prevY : ℚ) (m : GameObject) (g : Bool)
    (obj : GameObject) (hact : obj.active = true) (hsol : obj.solid = true)
    (hbr : obj.broken = false) :
    ¬ checkCollision (resolvePlayerOne prevY m g obj).mario obj := by
  unfold resolvePlayerOne
  by_cases hc : checkCollision m obj
  · rw [if_pos ⟨by simp [hact], by simp [hsol], by simp [hbr], hc⟩]
    by_cases hb : hitFromBelowCond prevY m obj
    · rw [if_pos hb]
      dsimp only
      unfold checkCollision
      simp only [not_and, not_lt]
      intro ha hbx hcx
      linarith
    · rw [if_neg hb]
      dsimp only
      exact resolveGeneric_no_overlap m obj g
  · rw [if_neg (by intro h; exact hc h.2.2.2)]
    exact hc

/-- Witness for the amended claim C1 at the level 1 pipe. -/
theorem C1_per_entity_no_overlap_witness :
    cxPipe.active = true ∧ cxPipe.solid = true ∧ cxPipe.broken = false ∧
      ¬ checkCollision (resolvePlayerOne 354 cxMario false cxPipe).mario cxPipe :=
  ⟨rfl, rfl, rfl, C1_per_entity_no_overlap 354 cxMario false cxPipe rfl rfl rfl⟩

/-- Counterexample to claim C1 as stated: starting from a concrete
player state inside the level 1 pipe region, the full terrain pass ends
with the player box overlapping the active solid pipe, because the
floor clamp pushes the player back up into the pipe after the pipe was
already resolved. -/
theorem C1_residual_overlap_cx :
    cxPipe.active = true ∧ cxPipe.solid = true ∧ cxPipe.broken = false ∧
      checkCollision (resolveTerrain 354 cxMario [cxGround1, cxGround2, cxPipe]).1 cxPipe := by
  with_unfolding_all decide

/-- Claim C7: for an overlapping active solid block or brick, upward
player motion together with the previous frame top edge lying within
the 5 unit tolerance of the underside classifies the contact as hit
from below: the block interaction branch fires, the vertical velocity
becomes the fixed downward value 3, the player is placed flush below
the entity, and the generic resolution for that entity is skipped
entirely (the output is exactly the special case output). -/
theorem C7_hit_from_below (prevY : ℚ) (m : GameObject) (g : Bool)
    (obj : GameObject) (hact : obj.active = true) (hsol : obj.solid = true)
    (hbr : obj.broken = false) (hcol : checkCollision m obj)
    (hty : obj.type = ObjType.block ∨ obj.type = ObjType.brick)
    (hvy : m.vy < 0) (hprev : prevY ≥ obj.y + obj.height - 5) :
    resolvePlayerOne prevY m g obj =
      ⟨{ m with vy := 3, y := obj.y + obj.height }, g, true⟩ := by
  unfold resolvePlayerOne
  rw [if_pos ⟨by simp [hact], by simp [hsol], by simp [hbr], hcol⟩,
    if_pos ⟨hty, hvy, hprev, le_of_lt hcol.2.2.1⟩]

/-- Question block of the level 1 data at x 256. -/
def cxBlock256 : GameObject :=
  { x := 256, y := 272, width := 32, height := 32, type := ObjType.block,
    active := true, solid := true }

/-- Player state rising under the level 1 question block at x 256. -/
def cxMario7 : GameObject :=
  { marioInit with x := 256, y := 300, vy := -4 }

/-- Witness for claim C7: the player rising under the level 1 question
block at x 256 is bounced down to the underside of the block. -/
theorem C7_hit_from_below_witness :
    checkCollision cxMario7 cxBlock256 ∧
      resolvePlayerOne 304 cxMario7 false cxBlock256 =
        ⟨{ cxMario7 with vy := 3, y := cxBlock256.y + cxBlock256.height }, false, true⟩ :=
  ⟨by with_unfolding_all decide,
    C7_hit_from_below 304 cxMario7 false cxBlock256
      rfl rfl rfl (by with_unfolding_all decide) (Or.inl rfl)
      (by with_unfolding_all decide) (by with_unfolding_all decide)⟩

end MarioSim

namespace MarioSim

/-- Claim C8: a player versus solid overlap that is not a hit from
below goes to the generic resolver, which resolves the axis of strictly
smaller penetration depth: horizontal resolution clamps x to the entity
edge and zeroes vx; vertical resolution from above snaps to the top
edge, zeroes vy and sets grounded, and from below snaps to the bottom
edge and zeroes vy; equal depths resolve the vertical axis. -/
theorem C8_min_overlap_resolution (prevY : ℚ) (m : GameObject) (g : Bool)
    (obj : GameObject) (hact : obj.active = true) (hsol : obj.solid = true)
    (hbr : obj.broken = false) (hcol : checkCollision m obj)
    (hnb : ¬ hitFromBelowCond prevY m obj) :
    (resolvePlayerOne prevY m g obj =
        ⟨(resolveGeneric m obj g).1, (resolveGeneric m obj g).2, false⟩) ∧
    (min (m.x + m.width - obj.x) (obj.x + obj.width - m.x) <
        min (m.y + m.height - obj.y) (obj.y + obj.height - m.y) →
      (m.x < obj.x →
          resolveGeneric m obj g = ({ m with x := obj.x - m.width, vx := 0 }, g)) ∧
      (¬ m.x < obj.x →
          resolveGeneric m obj g = ({ m with x := obj.x + obj.width, vx := 0 }, g))) ∧
    (min (m.y + m.height - obj.y) (obj.y + obj.height - m.y) ≤
        min (m.x + m.width - obj.x) (obj.x + obj.width - m.x) →
      (m.y < obj.y →
          resolveGeneric m obj g =
            ({ m with y := obj.y - m.height, vy := 0, grounded := true }, true)) ∧
      (¬ m.y < obj.y →
          resolveGeneric m obj g = ({ m with y := obj.y + obj.height, vy := 0 }, g))) := by
  refine ⟨?_, ?_, ?_⟩
  · unfold resolvePlayerOne
    rw [if_pos ⟨by simp [hact], by simp [hsol], by simp [hbr], hcol⟩, if_neg hnb]
  · intro hlt
    constructor <;> intro hx <;> unfold resolveGeneric <;> dsimp only
    · rw [if_pos hlt, if_pos hx]
    · rw [if_pos hlt, if_neg hx]
  · intro hle
    constructor <;> intro hy <;> unfold resolveGeneric <;> dsimp only
    · rw [if_neg (not_lt.mpr hle), if_pos hy]
    · rw [if_neg (not_lt.mpr hle), if_neg hy]

/-- Witness for claim C8: the concrete falling player over the ground
block at x 448 resolves vertically from above onto its top edge. -/
theorem C8_min_overlap_resolution_witness :
    checkCollision cxMario cxGround1 ∧ ¬ hitFromBelowCond 354 cxMario cxGround1 ∧
      resolvePlayerOne 354 cxMario false cxGround1 =
        ⟨(resolveGeneric cxMario cxGround1 false).1,
          (resolveGeneric cxMario cxGround1 false).2, false⟩ :=
  ⟨by with_unfolding_all decide, by with_unfolding_all decide,
    (C8_min_overlap_resolution 354 cxMario false cxGround1 rfl rfl rfl
      (by with_unfolding_all decide) (by with_unfolding_all decide)).1⟩

end MarioSim

namespace MarioSim

/-- Question block of the level 2 data at x 128. -/
def qb128 : GameObject :=
  { x := 128, y := 272, width := 32, height := 32, type := ObjType.block,
    active := true, solid := true }

/-- Tick state with the coin counter at 99 in level 2. -/
def s99 : TickState :=
  { mario := marioInit, score := 0, lives := 3, coins := 99, currentLevel := 2 }

/-- Static coin of the level 1 data at x 320. -/
def coin320 : GameObject :=
  { x := 320, y := 200, width := 16, height := 16, type := ObjType.coin,
    active := true }

/-- Claim C2 (amended): the hundred coin conversion lives only in the
static coin contact handler: when a contact coin brings the counter to
at least 100 the handler awards one life and resets the counter to 0,
and below 100 it only increments; the coin credited by a question block
spawn goes through applySpawnEcon, which never touches the lives
counter, so reaching 100 on that path gives no life and no reset. -/
theorem C2_coin_conversion :
    (∀ (s : TickState) (obj : GameObject), s.coins + 1 ≥ 100 →
        (coinContact s obj).1.coins = 0 ∧ (coinContact s obj).1.lives = s.lives + 1) ∧
    (∀ (s : TickState) (obj : GameObject), s.coins + 1 < 100 →
        (coinContact s obj).1.coins = s.coins + 1 ∧
          (coinContact s obj).1.lives = s.lives) ∧
    (∀ (level : ℤ) (b f : Bool) (obj : GameObject) (r1 r2 : ℚ) (s : TickState),
        (applySpawnEcon s (blockHit level b f obj r1 r2).2).lives = s.lives) := by
  refine ⟨?_, ?_, ?_⟩
  · intro s obj h
    unfold coinContact
    dsimp only
    rw [if_pos (by simpa using h)]
    exact ⟨rfl, rfl⟩
  · intro s obj h
    unfold coinContact
    dsimp only
    rw [if_neg (by simpa using not_le.mpr h)]
    exact ⟨rfl, rfl⟩
  · intro level b f obj r1 r2 s
    rfl

/-- Witness for the amended claim C2: collecting a contact coin at a
counter of 99 converts to a life and resets the counter. -/
theorem C2_coin_conversion_witness :
    s99.coins + 1 ≥ 100 ∧ (coinContact s99 coin320).1.coins = 0 ∧
      (coinContact s99 coin320).1.lives = s99.lives + 1 :=
  ⟨by with_unfolding_all decide, C2_coin_conversion.1 s99 coin320 (by with_unfolding_all decide)⟩

/-- Counterexample to claim C2 as stated: hitting the level 2 question
block at x 128 with the counter at 99 credits the hundredth coin through
the spawn branch, yet the lives counter stays at 3 and the coin counter
sits at 100 instead of resetting. -/
theorem C2_block_coin_no_conversion_cx :
    s99.coins = 99 ∧ s99.lives = 3 ∧
      (blockHit 2 false false qb128 0 0).2.spawns = [coinSpawn 128 272] ∧
      (applySpawnEcon s99 (blockHit 2 false false qb128 0 0).2).coins = 100 ∧
      (applySpawnEcon s99 (blockHit 2 false false qb128 0 0).2).lives = 3 := by
  with_unfolding_all decide

/-- Piranha of the level 2 data at the pipe at x 544. -/
def piranha544 : GameObject :=
  { x := 544, y := 280, width := 16, height := 16, type := ObjType.piranha,
    active := true, vx := 0, vy := -1, minY := 264, maxY := 304, hasVy := true }

/-- Tick state with an invincible player overlapping the level 2 piranha. -/
def s10 : TickState :=
  { mario := { marioInit with x := 540, y := 280, invincible := 10 },
    score := 0, lives := 3, coins := 0, currentLevel := 2 }

/-- Claim C3 (amended): contact while invincibleTicks is positive
deactivates a goomba or koopa and awards 100 points, but a piranha
contact under invincibility is a complete no op: the piranha stays
active and no score is awarded, because the piranha case only acts when
the invincibility counter is exactly zero. -/
theorem C3_invincible_contact :
    (∀ (s : TickState) (obj : GameObject), s.mario.invincible > 0 →
        goombaContact s obj =
          ({ s with score := s.score + 100 }, { obj with active := false })) ∧
    (∀ (s : TickState) (obj : GameObject), s.mario.invincible > 0 →
        koopaContact s obj =
          ({ s with score := s.score + 100 }, { obj with active := false })) ∧
    (∀ (s : TickState) (obj : GameObject), s.mario.invincible > 0 →
        piranhaContact s obj = (s, obj)) := by
  refine ⟨?_, ?_, ?_⟩
  · intro s obj h
    unfold goombaContact
    rw [if_pos h]
  · intro s obj h
    unfold koopaContact
    rw [if_pos h]
  · intro s obj h
    unfold piranhaContact
    rw [if_neg (ne_of_gt h)]

/-- Witness for the amended claim C3 at the level 2 piranha. -/
theorem C3_invincible_contact_witness :
    s10.mario.invincible > 0 ∧ piranhaContact s10 piranha544 = (s10, piranha544) :=
  ⟨by with_unfolding_all decide,
    C3_invincible_contact.2.2 s10 piranha544 (by with_unfolding_all decide)⟩

set_option maxRecDepth 8000 in
/-- Counterexample to claim C3 as stated: an invincible player
overlapping the level 2 piranha leaves the piranha active and the score
unchanged, so no damaging enemy kind deactivation happens for the
piranha under invincibility. -/
theorem C3_piranha_invincible_noop_cx :
    s10.mario.invincible > 0 ∧ checkCollision s10.mario piranha544 ∧
      contactStep s10 piranha544 = (s10, piranha544) ∧
      (contactStep s10 piranha544).2.active = true ∧
      (contactStep s10 piranha544).1.score = s10.score := by
  with_unfolding_all decide

end MarioSim

namespace MarioSim

/-- Tick state of a small, non fire player. -/
def sSmall : TickState :=
  { mario := marioInit, score := 0, lives := 3, coins := 0 }

/-- Fire flower entity as spawned above the level 1 block at x 768. -/
def flower768 : GameObject := fireflowerSpawn 768 272

/-- Claim C4: fire flower contact always deactivates the flower and
adds 1000 points; a big player gains fire mode with no size change,
while a small player grows to big (height 28, top edge moved up 8) and
keeps its fire flag unchanged, so it does not become fire. -/
theorem C4_fireflower_asymmetry (s : TickState) (obj : GameObject) :
    ((fireflowerContact s obj).2.active = false) ∧
    ((fireflowerContact s obj).1.score = s.score + 1000) ∧
    (s.mario.big = true →
      (fireflowerContact s obj).1.mario.fire = true ∧
      (fireflowerContact s obj).1.mario.big = true ∧
      (fireflowerContact s obj).1.mario.height = s.mario.height ∧
      (fireflowerContact s obj).1.mario.y = s.mario.y) ∧
    (s.mario.big = false →
      (fireflowerContact s obj).1.mario.big = true ∧
      (fireflowerContact s obj).1.mario.fire = s.mario.fire ∧
      (fireflowerContact s obj).1.mario.height = 28 ∧
      (fireflowerContact s obj).1.mario.y = s.mario.y - 8) := by
  unfold fireflowerContact
  dsimp only
  refine ⟨rfl, rfl, ?_, ?_⟩
  · intro hb
    rw [if_pos (by simp [hb])]
    exact ⟨rfl, hb, rfl, rfl⟩
  · intro hb
    rw [if_neg (by simp [hb])]
    exact ⟨rfl, rfl, rfl, rfl⟩

/-- Witness for claim C4: the small player picking up the flower grows
to big, stays non fire, and is re anchored upward. -/
theorem C4_fireflower_asymmetry_witness :
    sSmall.mario.big = false ∧
      (fireflowerContact sSmall flower768).1.mario.big = true ∧
      (fireflowerContact sSmall flower768).1.mario.fire = sSmall.mario.fire ∧
      (fireflowerContact sSmall flower768).1.mario.height = 28 ∧
      (fireflowerContact sSmall flower768).1.mario.y = sSmall.mario.y - 8 :=
  ⟨rfl, (C4_fireflower_asymmetry sSmall flower768).2.2.2 rfl⟩

/-- Claim C5: the question block conversion is irreversible and spawns
exactly once: a block becomes a brick with the one question policy
spawn, no output of the interaction ever has the block type again, a
brick input keeps the brick type and only the brick branch spawn list
(the level 2 starman brick or nothing, never the question policy), and
every interaction pushes at most one entity. -/
theorem C5_question_block_once :
    (∀ (level : ℤ) (b f : Bool) (obj : GameObject) (r1 r2 : ℚ),
        (blockHit level b f obj r1 r2).1.type ≠ ObjType.block) ∧
    (∀ (level : ℤ) (b f : Bool) (obj : GameObject) (r1 r2 : ℚ),
        obj.type = ObjType.block →
        (blockHit level b f obj r1 r2).1.type = ObjType.brick) ∧
    (∀ (level : ℤ) (b f : Bool) (obj : GameObject) (r1 r2 : ℚ),
        obj.type = ObjType.brick →
        (blockHit level b f obj r1 r2).1.type = ObjType.brick ∧
        (blockHit level b f obj r1 r2).2.spawns =
          (if b = true ∧ level = 2 ∧ obj.x = 256 then [starmanSpawn obj.x obj.y]
           else [])) ∧
    (∀ (level : ℤ) (b f : Bool) (obj : GameObject) (r1 r2 : ℚ),
        ((blockHit level b f obj r1 r2).2.spawns).length ≤ 1) := by
  refine ⟨?_, ?_, ?_, ?_⟩
  · intro level b f obj r1 r2
    unfold blockHit
    split_ifs with h1 h2
    · simp
    · simpa using fun h => (by simpa [h] using h2.1 : False)
    · simpa using fun h => h1 h
  · intro level b f obj r1 r2 h
    unfold blockHit
    rw [if_pos h]
  · intro level b f obj r1 r2 h
    unfold blockHit
    rw [if_neg (by simp [h])]
    by_cases hb : b = true
    · rw [if_pos ⟨by simp [h], hb⟩]
      refine ⟨by simp [h], ?_⟩
      unfold brickSpawns
      simp [hb]
    · rw [if_neg (by simp [hb])]
      simp [h, hb]
  · intro level b f obj r1 r2
    unfold blockHit questionSpawn brickSpawns
    split_ifs <;> simp

/-- Witness for claim C5: hitting the level 2 question block at x 128
converts it into a brick. -/
theorem C5_question_block_once_witness :
    qb128.type = ObjType.block ∧
      (blockHit 2 false false qb128 0 0).1.type = ObjType.brick :=
  ⟨rfl, C5_question_block_once.2.1 2 false false qb128 0 0 rfl⟩

end MarioSim

namespace MarioSim

/-- Tick state of the stomp scenario: a non invincible player at y 100
falling with vy 5. -/
def s9 : TickState :=
  { mario := { x := 300, y := 100, width := 20, height := 20,
               type := ObjType.mario, active := true, vy := 5, invincible := 0 },
    score := 0, lives := 3, coins := 0 }

/-- Goomba of the stomp scenario at y 110, overlapping the player. -/
def goomba9 : GameObject :=
  { x := 300, y := 110, width := 20, height := 20, type := ObjType.goomba,
    active := true, vx := -1, direction := -1 }

set_option maxRecDepth 8000 in
/-- Claim C9: a non invincible player at y 100 falling with vy 5 onto a
goomba at y 110 (top edge margin 10, beyond the 5 unit stomp margin)
stomps it: the goomba deactivates, the player vy becomes the negative
bounce value JUMP_FORCE over 2, and the score grows by exactly 100. -/
theorem C9_stomp_scenario :
    s9.mario.invincible = 0 ∧ s9.mario.y = 100 ∧ s9.mario.vy = 5 ∧
      goomba9.y = 110 ∧ checkCollision s9.mario goomba9 ∧
      (contactStep s9 goomba9).2.active = false ∧
      (contactStep s9 goomba9).1.mario.vy = JUMP_FORCE / 2 ∧
      (contactStep s9 goomba9).1.mario.vy < 0 ∧
      (contactStep s9 goomba9).1.score = s9.score + 100 := by
  with_unfolding_all decide

/-- Stationary kicked shell koopa turned moving shell, next to the player. -/
def shellK : GameObject :=
  { x := 400, y := 348, width := 16, height := 16, type := ObjType.koopa,
    active := true, shell := true, vx := 8 }

/-- Tick state of a non invincible small player beside the moving shell. -/
def sC10 : TickState :=
  { mario := { marioInit with x := 396, y := 348 },
    score := 0, lives := 3, coins := 0 }

/-- Claim C10: contact with a koopa that is in shell mode and moving
(nonzero vx), while the player is not invincible and the stomp geometry
fails, changes nothing at all: the whole tick state and the shell are
returned unchanged, so no damage, no kick, no score. -/
theorem C10_moving_shell_harmless (s : TickState) (obj : GameObject)
    (hty : obj.type = ObjType.koopa)
    (hinv : ¬ s.mario.invincible > 0)
    (hstomp : ¬ (s.mario.vy > 0 ∧ s.mario.y < obj.y - 5))
    (hshell : obj.shell = true) (hvx : obj.vx ≠ 0) :
    contactStep s obj = (s, obj) := by
  unfold contactStep
  by_cases hc : (obj.active ∧ checkCollision s.mario obj)
  · rw [if_pos hc]
    have hk : koopaContact s obj = (s, obj) := by
      unfold koopaContact
      rw [if_neg hinv, if_neg hstomp,
        if_neg (by intro h; exact hvx h.2),
        if_neg (by intro h; cases h with
          | inl h2 => exact h2 (by simp [hshell])
          | inr h2 => exact hvx h2)]
    rw [hty]
    exact hk
  · rw [if_neg hc]

/-- Witness for claim C10: the concrete moving shell beside the player
leaves everything unchanged. -/
theorem C10_moving_shell_harmless_witness :
    shellK.shell = true ∧ shellK.vx = 8 ∧ sC10.mario.invincible = 0 ∧
      contactStep sC10 shellK = (sC10, shellK) :=
  ⟨rfl, rfl, rfl,
    C10_moving_shell_harmless sC10 shellK rfl (by with_unfolding_all decide)
      (by with_unfolding_all decide) rfl (by with_unfolding_all decide)⟩

end MarioSim

namespace MarioSim

lemma floorClamp_bottom (m : GameObject) (g : Bool) :
    (floorClamp m g).1.y + (floorClamp m g).1.height ≤ 368 := by
  unfold floorClamp
  split_ifs with h
  · dsimp only
    linarith
  · dsimp only
    linarith [lt_of_not_ge h]

lemma powerupBounce_y (acc other : GameObject) :
    (powerupBounce acc other).y = acc.y ∧ (powerupBounce acc other).height = acc.height := by
  unfold powerupBounce
  split_ifs <;> exact ⟨rfl, rfl⟩

lemma foldl_powerupBounce_y (l : List GameObject) (acc : GameObject) :
    (l.foldl powerupBounce acc).y = acc.y ∧
      (l.foldl powerupBounce acc).height = acc.height := by
  induction l generalizing acc with
  | nil => exact ⟨rfl, rfl⟩
  | cons a t ih =>
    have h1 := ih (powerupBounce acc a)
    have h2 := powerupBounce_y acc a
    simp only [List.foldl_cons]
    exact ⟨h1.1.trans h2.1, h1.2.trans h2.2⟩

lemma foldl_powerupBounce_bottom (l : List GameObject) (acc : GameObject)
    (h : acc.y + acc.height ≤ 368) :
    (l.foldl powerupBounce acc).y + (l.foldl powerupBounce acc).height ≤ 368 := by
  obtain ⟨hy, hh⟩ := foldl_powerupBounce_y l acc
  rw [hy, hh]
  exact h

/-- Auxiliary invariant of the block spawned falling coin trajectory:
while the coin stays active its fall speed has not passed 5 and its top
edge is high enough (through the quadratic slack term) that every later
active position also stays above the floor plane. -/
def spawnedCoinInv (c : GameObject) : Prop :=
  c.active = true →
    c.hasVy = true ∧ c.height = 16 ∧ -8 ≤ c.vy ∧ c.vy ≤ 5 ∧
      c.y + (5 - c.vy) * (8.1 + c.vy) ≤ 352

lemma coinStep_inv (c : GameObject) (h : spawnedCoinInv c) :
    spawnedCoinInv (coinStep c) := by
  unfold coinStep
  split_ifs with hc
  · obtain ⟨h1, h2, h3, h4, h5⟩ := h (by simpa using hc.2)
    dsimp only
    split_ifs with hrem
    · intro ha
      simp at ha
    · intro _
      push_neg at hrem
      have hvy5 := hrem.2
      refine ⟨h1, h2, ?_, ?_, ?_⟩
      · show (-8 : ℚ) ≤ c.vy + GRAVITY
        unfold GRAVITY
        linarith
      · exact hvy5
      · show c.y + (c.vy + GRAVITY) + (5 - (c.vy + GRAVITY)) * (8.1 + (c.vy + GRAVITY)) ≤ 352
        unfold GRAVITY at *
        nlinarith [h5, h3]
  · exact h

lemma coinTraj_inv (bx : ℚ) (n : ℕ) :
    spawnedCoinInv ((coinStep)^[n] (coinSpawn bx 272)) := by
  induction n with
  | zero =>
    intro _
    refine ⟨rfl, rfl, by norm_num [coinSpawn], by norm_num [coinSpawn], ?_⟩
    show ((272 : ℚ) - 20) + (5 - (-8)) * (8.1 + (-8)) ≤ 352
    norm_num
  | succ k ih =>
    rw [Function.iterate_succ_apply']
    exact coinStep_inv _ ih

lemma spawnedCoinInv_bottom (c : GameObject) (h : spawnedCoinInv c)
    (ha : c.active = true) : c.y + c.height ≤ 368 := by
  obtain ⟨_, hh, h3, h4, h5⟩ := h ha
  have hf : (0 : ℚ) ≤ (5 - c.vy) * (8.1 + c.vy) :=
    mul_nonneg (by linarith) (by linarith)
  rw [hh]
  linarith

/-- Claim C6: after resolution, every gravity entity respects the floor
plane at y 368: the player terrain pass ends with the bottom edge at or
above the floor (the clamp is its last position change), the powerup,
fire flower and fireball steps clamp to the floor, and every active
state of a coin spawned from a question block (all of which sit at
y 272, so the coin starts at y 252 with vy minus 8) stays above the
floor because the removal threshold on the fall speed fires long before
the coin can reach it. -/
theorem C6_floor_containment :
    (∀ (prevY : ℚ) (m : GameObject) (objs : List GameObject),
        (resolveTerrain prevY m objs).1.y + (resolveTerrain prevY m objs).1.height ≤ 368) ∧
    (∀ (obj : GameObject) (objs : List GameObject),
        (powerupStep obj objs).y + (powerupStep obj objs).height ≤ 368) ∧
    (∀ obj : GameObject, (fireflowerStep obj).y + (fireflowerStep obj).height ≤ 368) ∧
    (∀ obj : GameObject, (fireballStep obj).y + (fireballStep obj).height ≤ 368) ∧
    (∀ (bx : ℚ) (n : ℕ), ((coinStep)^[n] (coinSpawn bx 272)).active = true →
        ((coinStep)^[n] (coinSpawn bx 272)).y +
          ((coinStep)^[n] (coinSpawn bx 272)).height ≤ 368) := by
  refine ⟨?_, ?_, ?_, ?_, ?_⟩
  · intro prevY m objs
    unfold resolveTerrain
    dsimp only
    split_ifs with h
    · dsimp only
      exact floorClamp_bottom _ _
    · exact floorClamp_bottom _ _
  · intro obj objs
    unfold powerupStep
    dsimp only
    apply foldl_powerupBounce_bottom
    split_ifs with h
    · dsimp only
      linarith
    · dsimp only
      linarith [lt_of_not_ge h]
  · intro obj
    unfold fireflowerStep
    dsimp only
    split_ifs with h
    · dsimp only
      linarith
    · dsimp only
      linarith [lt_of_not_ge h]
  · intro obj
    unfold fireballStep
    dsimp only
    split_ifs with h1 h2 h3 <;> dsimp only <;> linarith
  · intro bx n ha
    exact spawnedCoinInv_bottom _ (coinTraj_inv bx n) ha

/-- Witness for claim C6 at the first trajectory step of the coin
spawned from the level 1 block at x 256. -/
theorem C6_floor_containment_witness :
    ((coinStep)^[1] (coinSpawn 256 272)).active = true ∧
      ((coinStep)^[1] (coinSpawn 256 272)).y +
        ((coinStep)^[1] (coinSpawn 256 272)).height ≤ 368 :=
  ⟨by with_unfolding_all decide,
    C6_floor_containment.2.2.2.2 256 1 (by with_unfolding_all decide)⟩

end MarioSim
